import Mathlib

/-!
Shallow embedding of the road-risk pipeline of the Standing backend
(`router/map.py` and `functions/mapData_proccess.py`).

Numeric model: values parsed from JSON/CSV (road coordinates, cell values,
station coordinates, wind speeds, building heights) are modelled as exact
rationals; the composite-value formula and the haversine distance, which use
real powers and trigonometry, are modelled over the real numbers.

The external `h3` library (an excluded collaborator) is modelled as an
abstract cell-assignment function `Point → Option String`: a `none` result
stands for a raised exception, which the sampling loop of
`_calculate_road_value` swallows with `try/except: pass`.
-/

/-! ## Data model of the road-risk classifier (`router/map.py`) -/

/-- Geometry point of a road, the dict `\x7b'lat': ..., 'lng': ...\x7d`. -/
structure Point where
  lat : ℚ
  lng : ℚ
  deriving DecidableEq

/-- Road record from `taipei_roads.json`: id, highway type, name and the
ordered geometry point list.  A road whose JSON object has no `geometry`
key is represented with an empty `geometry` list (both are skipped by the
same guard in `_analyze_roads_task`). -/
structure Road where
  id : ℕ
  name : String
  roadType : String
  geometry : List Point
  deriving DecidableEq

/-- Python `range(0, n, step)`: the indices `0, step, 2*step, ...` strictly
below `n` (for `step > 0`). -/
def pyRange (n step : ℕ) : List ℕ :=
  List.range' 0 ((n + step - 1) / step) step

/-- The indices sampled by `_calculate_road_value` on a geometry of `n`
points: `sample_count = min(10, len(geometry))`,
`sample_interval = max(1, len(geometry) // sample_count)`, then the loop
`for i in range(0, len(geometry), sample_interval)`. -/
def sampleIndices (n : ℕ) : List ℕ :=
  let sample_count := min 10 n
  let sample_interval := max 1 (n / sample_count)
  pyRange n sample_interval

/-- One iteration of the sampling loop of `_calculate_road_value`: map the
sampled point to its `h3` cell, and when the cell is present in the value
map accumulate `(total_value, valid_points)`.  A `none` from `toCell` is a
raised exception, swallowed by the `try/except: pass`. -/
def sampleStep (toCell : Point → Option String) (h3_map : String → Option ℚ)
    (geometry : List Point) (acc : ℚ × ℕ) (i : ℕ) : ℚ × ℕ :=
  match geometry.get? i with
  | none => acc
  | some point =>
    match (toCell point).bind h3_map with
    | some v => (acc.1 + v, acc.2 + 1)
    | none => acc

/-- The pair `(total_value, valid_points)` after the sampling loop of
`_calculate_road_value`. -/
def roadSampleAcc (toCell : Point → Option String) (h3_map : String → Option ℚ)
    (geometry : List Point) : ℚ × ℕ :=
  (sampleIndices geometry.length).foldl (sampleStep toCell h3_map geometry) (0, 0)

/-- Embedding of `_calculate_road_value(geometry, h3_map)`
(router/map.py, lines 144-162):
`return total_value / valid_points if valid_points > 0 else None`. -/
def calculate_road_value (toCell : Point → Option String) (h3_map : String → Option ℚ)
    (geometry : List Point) : Option ℚ :=
  let acc := roadSampleAcc toCell h3_map geometry
  if 0 < acc.2 then some (acc.1 / acc.2) else none

/-- The `level` entry of the dict returned by `_get_risk_level`: one of the
integers 1-5 or the string `'unknown'`. -/
inductive RiskLevel where
  | l1
  | l2
  | l3
  | l4
  | l5
  | unknown
  deriving DecidableEq

/-- The dict returned by `_get_risk_level`. -/
structure RiskInfo where
  level : RiskLevel
  level_name : String
  color : String
  color_rgb : String
  deriving DecidableEq

/-- Embedding of `_get_risk_level(value)` (router/map.py, lines 164-208). -/
def get_risk_level : Option ℚ → RiskInfo
  | none => ⟨.unknown, "未知", "gray", "rgb(128, 128, 128)"⟩
  | some value =>
    if value < 10.8 then ⟨.l1, "極低風險", "green", "rgb(26, 152, 80)"⟩
    else if value < 12.5 then ⟨.l2, "低風險", "light_green", "rgb(166, 217, 106)"⟩
    else if value < 14.4 then ⟨.l3, "中風險", "yellow", "rgb(255, 255, 0)"⟩
    else if value < 16.2 then ⟨.l4, "高風險", "orange", "rgb(253, 174, 97)"⟩
    else ⟨.l5, "極高風險", "red", "rgb(215, 25, 28)"⟩

/-- Python `round(x, 2)` on the exact rational model of a value. -/
def round2q (x : ℚ) : ℚ := (round (100 * x) : ℤ) / 100

/-- The per-road dict `road_info` built by `_analyze_roads_task`. -/
structure RoadInfo where
  id : ℕ
  name : String
  roadType : String
  combined_value : Option ℚ
  risk_level : RiskLevel
  risk_level_name : String
  color : String
  color_rgb : String
  start_point : Point
  end_point : Point
  geometry_point_count : ℕ
  deriving DecidableEq

/-- The stats dict of `_analyze_roads_task`, keys `1..5` and `'unknown'`. -/
structure Stats where
  level1 : ℕ
  level2 : ℕ
  level3 : ℕ
  level4 : ℕ
  level5 : ℕ
  unknown : ℕ
  deriving DecidableEq

/-- The initial stats dict `\x7b1: 0, 2: 0, 3: 0, 4: 0, 5: 0, 'unknown': 0\x7d`. -/
def Stats.init : Stats := ⟨0, 0, 0, 0, 0, 0⟩

/-- The update `stats[risk_info['level']] += 1`. -/
def Stats.incr (s : Stats) : RiskLevel → Stats
  | .l1 => { s with level1 := s.level1 + 1 }
  | .l2 => { s with level2 := s.level2 + 1 }
  | .l3 => { s with level3 := s.level3 + 1 }
  | .l4 => { s with level4 := s.level4 + 1 }
  | .l5 => { s with level5 := s.level5 + 1 }
  | .unknown => { s with unknown := s.unknown + 1 }

/-- Sum of the six bucket counts of a stats dict. -/
def Stats.total (s : Stats) : ℕ :=
  s.level1 + s.level2 + s.level3 + s.level4 + s.level5 + s.unknown

/-- A road is skipped by `_analyze_roads_task` when its name is the sentinel
"未命名道路" or its geometry is missing/empty. -/
def roadExcluded (road : Road) : Bool :=
  decide (road.name = "未命名道路") || decide (road.geometry = [])

/-- Body of the per-road loop of `_analyze_roads_task`: skip excluded
roads, otherwise compute the average combined value, classify, count, and
append the `road_info` dict. -/
def roadStep (toCell : Point → Option String) (h3_map : String → Option ℚ)
    (acc : List RoadInfo × Stats) (road : Road) : List RoadInfo × Stats :=
  if road.name = "未命名道路" then acc
  else if road.geometry = [] then acc
  else
    let combined_value := calculate_road_value toCell h3_map road.geometry
    let risk_info := get_risk_level combined_value
    let stats := acc.2.incr risk_info.level
    let road_info : RoadInfo :=
      { id := road.id,
        name := road.name,
        roadType := road.roadType,
        combined_value := combined_value.map round2q,
        risk_level := risk_info.level,
        risk_level_name := risk_info.level_name,
        color := risk_info.color,
        color_rgb := risk_info.color_rgb,
        start_point := road.geometry.head?.getD ⟨0, 0⟩,
        end_point := road.geometry.getLast?.getD ⟨0, 0⟩,
        geometry_point_count := road.geometry.length }
    (acc.1 ++ [road_info], stats)

/-- Embedding of `_analyze_roads_task(h3_map, roads)`
(router/map.py, lines 210-250). -/
def analyze_roads_task (toCell : Point → Option String) (h3_map : String → Option ℚ)
    (roads : List Road) : List RoadInfo × Stats :=
  roads.foldl (roadStep toCell h3_map) ([], Stats.init)

/-- Simplified road entry of `_prepare_result_dict` (keys `name`, `start`,
`end`; `end` is a Lean keyword, rendered here as `stop`). -/
structure SimpleRoad where
  name : String
  start : Point
  stop : Point
  deriving DecidableEq

/-- One `level_<k>` entry assembled by `_prepare_result_dict`. -/
structure LevelEntry where
  risk_level : ℕ
  risk_level_name : String
  count : ℕ
  roads : List SimpleRoad
  deriving DecidableEq

/-- Construction of one `level_<k>` entry in `_prepare_result_dict`. -/
def levelEntryFor (analyzed_roads : List RoadInfo) (k : ℕ) (lv : RiskLevel) : LevelEntry :=
  let level_roads := analyzed_roads.filter
    (fun r => decide (r.risk_level = lv) && decide (r.name ≠ "未命名道路"))
  { risk_level := k,
    risk_level_name := (level_roads.head?.map (fun r => r.risk_level_name)).getD "",
    count := level_roads.length,
    roads := level_roads.map (fun r => ⟨r.name, r.start_point, r.end_point⟩) }

/-- The result dict of `_prepare_result_dict`, keys `level_1 .. level_5`. -/
structure ResultDict where
  level_1 : LevelEntry
  level_2 : LevelEntry
  level_3 : LevelEntry
  level_4 : LevelEntry
  level_5 : LevelEntry
  deriving DecidableEq

/-- Embedding of `_prepare_result_dict(analyzed_roads, stats)`
(router/map.py, lines 252-275); the `stats` argument is unused there. -/
def prepare_result_dict (analyzed_roads : List RoadInfo) (_stats : Stats) : ResultDict :=
  ⟨levelEntryFor analyzed_roads 1 .l1,
   levelEntryFor analyzed_roads 2 .l2,
   levelEntryFor analyzed_roads 3 .l3,
   levelEntryFor analyzed_roads 4 .l4,
   levelEntryFor analyzed_roads 5 .l5⟩

/-- Lookup `result_dict[f'level_\x7brisk_level\x7d']` for a level 1-5
(callers validate the range first; out-of-range keys cannot reach this
lookup). -/
def ResultDict.getLevel (d : ResultDict) (l : ℤ) : LevelEntry :=
  if l = 1 then d.level_1
  else if l = 2 then d.level_2
  else if l = 3 then d.level_3
  else if l = 4 then d.level_4
  else d.level_5

/-! ## Module state, sources, and the API operations (`router/map.py`) -/

/-- The value cached in `_road_risk_cache`: the prepared result dict plus
the internal keys `_stats` and `_total_roads` attached to it before
caching. -/
structure CacheEntry where
  dict : ResultDict
  stats : Stats
  total_roads : ℕ

/-- The four module-level cache variables of `router/map.py`:
`_road_risk_cache`, `_road_risk_cache_time`, `_hexgrid_cache`,
`_roads_cache`.  Time stamps are modelled as naturals. -/
structure CacheState where
  road_risk_cache : Option CacheEntry
  road_risk_cache_time : Option ℕ
  hexgrid_cache : Option (String → Option ℚ)
  roads_cache : Option (List Road)

/-- The initial module state: all four cache variables are `None`. -/
def emptyState : CacheState := ⟨none, none, none, none⟩

/-- The on-disk / upstream sources consumed by `_load_road_analysis_data`:
`hexgrid` is the parsed `h3_index → combined_value` map when
`hexgrid_data.json` exists (else `none`), and `roads` is the road list from
`taipei_roads.json` or, when that file is absent, from the Overpass API
fetch — `none` when neither is available. -/
structure Sources where
  hexgrid : Option (String → Option ℚ)
  roads : Option (List Road)

/-- Python exceptions that can escape the `try` body of
`analyze_road_risk`: `FileNotFoundError` and `fastapi.HTTPException`
(which, being an `Exception` subclass, is caught again by the blanket
`except Exception` handler below). -/
inductive PyExc where
  | fileNotFound (msg : String)
  | httpExc (status : ℕ) (detail : String)

/-- The `data` part of a successful `analyze_road_risk` response: one
level's entry when `risk_level` was given, otherwise all five levels. -/
inductive RespData where
  | single (entry : LevelEntry)
  | all (dict : ResultDict)

/-- A successful `analyze_road_risk` response: the `cached` flag, the
`data` block, and the `statistics` block
(`total_roads_analyzed` plus the six bucket counts, i.e. a `Stats`). -/
structure RiskResponse where
  cached : Bool
  data : RespData
  total_roads_analyzed : ℕ
  stats : Stats

/-- What the HTTP caller observes: a JSON payload, or an error status
raised as an `HTTPException` by the handlers of `analyze_road_risk`. -/
inductive ApiOutcome where
  | ok (resp : RiskResponse)
  | error (status : ℕ) (detail : String)

/-- Embedding of `_load_road_analysis_data()` (router/map.py, lines
90-140): return the cached pair when both `_hexgrid_cache` and
`_roads_cache` are set, otherwise re-read both sources (raising
`FileNotFoundError` when one is missing) and populate both caches. -/
def load_road_analysis_data (srcs : Sources) (st : CacheState) :
    Except PyExc ((String → Option ℚ) × List Road × CacheState) :=
  match st.hexgrid_cache, st.roads_cache with
  | some h3_map, some roads => .ok (h3_map, roads, st)
  | _, _ =>
    match srcs.hexgrid with
    | none => .error (.fileNotFound "六角格資料檔案不存在")
    | some h3_map =>
      match srcs.roads with
      | none => .error (.fileNotFound "道路資料檔案不存在且無法從 Overpass API 抓取")
      | some roads =>
        .ok (h3_map, roads,
          { st with hexgrid_cache := some h3_map, roads_cache := some roads })

/-- The `try` body of `analyze_road_risk(risk_level, use_cache)`
(router/map.py, lines 365-475), threading the module cache state.  Note
two facts mirrored from the source: the out-of-range check of
`risk_level` happens only after the analysis has run and the cache has
been populated (fresh path), and it is raised as `HTTPException(400)`
inside the `try`. -/
def analyze_road_risk_body (toCell : Point → Option String) (risk_level : Option ℤ)
    (use_cache : Bool) (srcs : Sources) (now : ℕ) (st : CacheState) :
    CacheState × Except PyExc RiskResponse :=
  match use_cache, st.road_risk_cache with
  | true, some entry =>
    match risk_level with
    | some l =>
      if l < 1 ∨ 5 < l then
        (st, .error (.httpExc 400 "risk_level 必須在 1-5 之間"))
      else
        (st, .ok ⟨true, .single (entry.dict.getLevel l), entry.total_roads, entry.stats⟩)
    | none =>
      (st, .ok ⟨true, .all entry.dict, entry.total_roads, entry.stats⟩)
  | _, _ =>
    match load_road_analysis_data srcs st with
    | .error e => (st, .error e)
    | .ok (h3_map, roads, st1) =>
      let task := analyze_roads_task toCell h3_map roads
      let result_dict := prepare_result_dict task.1 task.2
      let entry : CacheEntry := ⟨result_dict, task.2, roads.length⟩
      let st2 := { st1 with road_risk_cache := some entry, road_risk_cache_time := some now }
      match risk_level with
      | some l =>
        if l < 1 ∨ 5 < l then
          (st2, .error (.httpExc 400 "risk_level 必須在 1-5 之間"))
        else
          (st2, .ok ⟨false, .single (result_dict.getLevel l), roads.length, task.2⟩)
      | none =>
        (st2, .ok ⟨false, .all result_dict, roads.length, task.2⟩)

/-- The two `except` clauses of `analyze_road_risk` (router/map.py, lines
477-486): `FileNotFoundError` becomes a 404; everything else — including
the `HTTPException(400)` raised inside the `try`, since `HTTPException` is
an `Exception` subclass — is re-wrapped as `HTTPException(500)`. -/
def runHandlers : Except PyExc RiskResponse → ApiOutcome
  | .ok resp => .ok resp
  | .error (.fileNotFound msg) =>
    .error 404 ("找不到必要的資料檔案: " ++ msg)
  | .error (.httpExc status detail) =>
    .error 500 ("分析道路風險時發生錯誤: " ++ toString status ++ ": " ++ detail)

/-- Embedding of the endpoint `analyze_road_risk(risk_level, use_cache)`
(router/map.py, lines 346-486): run the body and apply the exception
handlers; module state mutations performed before an exception persist. -/
def analyze_road_risk (toCell : Point → Option String) (risk_level : Option ℤ)
    (use_cache : Bool) (srcs : Sources) (now : ℕ) (st : CacheState) :
    CacheState × ApiOutcome :=
  let r := analyze_road_risk_body toCell risk_level use_cache srcs now st
  (r.1, runHandlers r.2)

/-- Embedding of the endpoint `clear_road_risk_cache()` (router/map.py,
lines 488-508): set all four module cache variables to `None`. -/
def clear_road_risk_cache (_st : CacheState) : CacheState :=
  { road_risk_cache := none,
    road_risk_cache_time := none,
    hexgrid_cache := none,
    roads_cache := none }

/-! ## Grid construction side (`functions/mapData_proccess.py`) -/

/-- A retained weather station reading (fields used by
`update_hexgrid_data`; the other fields of the station dict play no role
in the grid computation).  `wind_speed` is `None` when the raw value was
missing or a sentinel (`-99`, `-998`, `-999`). -/
structure Station where
  station_id : String
  station_name : String
  county : String
  latitude : ℚ
  longitude : ℚ
  wind_speed : Option ℚ
  deriving DecidableEq

/-- A cleaned building record after projection: WGS84 coordinates and the
parsed height. -/
structure Building where
  lat : ℚ
  lng : ℚ
  height : ℚ
  deriving DecidableEq

/-- Python `math.radians`. -/
noncomputable def radians (x : ℝ) : ℝ := x * Real.pi / 180

/-- Embedding of `_haversine_distance(lat1, lon1, lat2, lon2)`
(functions/mapData_proccess.py, lines 174-187): great-circle distance in
kilometres with Earth radius `R = 6371`. -/
noncomputable def haversine_distance (lat1 lon1 lat2 lon2 : ℝ) : ℝ :=
  let R : ℝ := 6371
  let dlat := radians (lat2 - lat1)
  let dlon := radians (lon2 - lon1)
  let a := Real.sin (dlat / 2) ^ 2 +
    Real.cos (radians lat1) * Real.cos (radians lat2) * Real.sin (dlon / 2) ^ 2
  let c := 2 * Real.arcsin (Real.sqrt a)
  R * c

open Classical in
/-- The nearest-station scan of `update_hexgrid_data`
(functions/mapData_proccess.py, lines 328-341), written as a recursion
over the remaining station list.  `best` carries
`(nearest_station, min_distance)`; `none` models the initial
`min_distance = float('inf')` state (any finite distance beats it). -/
noncomputable def nearest_from (lat lng : ℝ) (best : Option (Station × ℝ)) :
    List Station → Option (Station × ℝ)
  | [] => best
  | s :: rest =>
    if 0 < s.latitude ∧ 0 < s.longitude then
      let d := haversine_distance lat lng s.latitude s.longitude
      match best with
      | none => nearest_from lat lng (some (s, d)) rest
      | some (m, dm) =>
        if d < dm then nearest_from lat lng (some (s, d)) rest
        else nearest_from lat lng (some (m, dm)) rest
    else nearest_from lat lng best rest

/-- The `nearest_station` value selected for a cell center by
`update_hexgrid_data`. -/
noncomputable def nearest_station (lat lng : ℝ) (stations : List Station) : Option Station :=
  (nearest_from lat lng none stations).map (fun p => p.1)

/-- The wind speed used for a cell:
`nearest_station['wind_speed'] if nearest_station and nearest_station.get('wind_speed') else 0`.
A missing station and a missing wind speed both give `0`; a stored wind
speed of `0` is falsy in Python and also gives `0`, which coincides with
using the stored value, so `Option.getD 0` is extensionally faithful. -/
def windUsed (ns : Option Station) : ℚ :=
  match ns with
  | none => 0
  | some s =>
    match s.wind_speed with
    | none => 0
    | some w => w

/-- The per-building assignment loop of `update_hexgrid_data`
(functions/mapData_proccess.py, lines 302-310): map each building to its
cell index and, when that index is one of the precomputed grid cells,
append its height to the cell's `heights` list.  `cellSet` is the filtered
`taipei_hexagons` set (the keys of `hex_stats`); `toCellB` models
`h3.latlng_to_cell(building['lat'], building['lng'], resolution)`. -/
def assignStep (cellSet : List String) (toCellB : ℚ × ℚ → String)
    (acc : String → List ℚ) (b : Building) : String → List ℚ :=
  let h3_index := toCellB (b.lat, b.lng)
  if h3_index ∈ cellSet then
    fun c => if c = h3_index then acc c ++ [b.height] else acc c
  else acc

/-- The per-cell `heights` lists after the whole building-assignment loop,
starting from the freshly initialised `hex_stats` (every grid cell mapped
to an empty list). -/
def assignHeights (cellSet : List String) (toCellB : ℚ × ℚ → String)
    (buildings : List Building) : String → List ℚ :=
  buildings.foldl (assignStep cellSet toCellB) (fun _ => [])

/-- The representative cell height of `update_hexgrid_data`
(functions/mapData_proccess.py, lines 321-326):
`max(stats['heights'])` when the list is non-empty, else `0` (the variable
is named `max_height` in the source). -/
def repHeight (heights : List ℚ) : ℚ :=
  match heights with
  | [] => 0
  | h :: t => t.foldl max h

/-- Embedding of the composite-value formula of `update_hexgrid_data`
(functions/mapData_proccess.py, line 348), with the source's exact
grouping:
`((wind_speed * (1.5/10)**0.25) * (min(1 + 0.25*max(0, max_height/8 -1), 1.6)) * (1.36))`. -/
noncomputable def combined_value (max_height wind_speed : ℝ) : ℝ :=
  (wind_speed * (1.5 / 10) ^ (0.25 : ℝ)) *
    (min (1 + 0.25 * max 0 (max_height / 8 - 1)) 1.6) * 1.36

/-- Python `round(x, 2)` on the real model of a value. -/
noncomputable def round2R (x : ℝ) : ℝ := (round (100 * x) : ℤ) / 100

/-- The stored `combined_value` of one hex cell
(functions/mapData_proccess.py, lines 318-354): representative height from
the assigned heights, wind speed from the nearest retained station, then
the rounded composite formula. -/
noncomputable def cell_combined_stored (stations : List Station)
    (center_lat center_lng : ℝ) (heights : List ℚ) : ℝ :=
  let max_height : ℚ := repHeight heights
  let wind_speed : ℚ := windUsed (nearest_station center_lat center_lng stations)
  round2R (combined_value (max_height : ℝ) (wind_speed : ℝ))

/-- Modelled from the spec (§4.5): `heightFactor = min(1 + 0.25 * max(0, maxHeight/8 - 1), 1.6)`. -/
noncomputable def spec_heightFactor (maxHeight : ℝ) : ℝ :=
  min (1 + 0.25 * max 0 (maxHeight / 8 - 1)) 1.6

/-- Modelled from the spec (§4.5):
`compositeValue = windSpeed * (1.5/10)^0.25 * heightFactor * 1.36`. -/
noncomputable def spec_compositeValue (windSpeed maxHeight : ℝ) : ℝ :=
  windSpeed * (1.5 / 10) ^ (0.25 : ℝ) * spec_heightFactor maxHeight * 1.36

/-! ## Theorems -/

/-- C5: for every non-null averaged composite value, `_get_risk_level`
classifies by the closed-open bands `<10.8 → 1`, `[10.8,12.5) → 2`,
`[12.5,14.4) → 3`, `[14.4,16.2) → 4`, `≥16.2 → 5`; each boundary value
falls into the higher band (e.g. 10.8 gives level 2), and a null value
classifies as unknown. -/
theorem c5_risk_level_bands :
    (get_risk_level none).level = .unknown ∧
    (∀ v : ℚ,
      ((get_risk_level (some v)).level = .l1 ↔ v < 10.8) ∧
      ((get_risk_level (some v)).level = .l2 ↔ 10.8 ≤ v ∧ v < 12.5) ∧
      ((get_risk_level (some v)).level = .l3 ↔ 12.5 ≤ v ∧ v < 14.4) ∧
      ((get_risk_level (some v)).level = .l4 ↔ 14.4 ≤ v ∧ v < 16.2) ∧
      ((get_risk_level (some v)).level = .l5 ↔ 16.2 ≤ v)) ∧
    (get_risk_level (some 10.8)).level = .l2 ∧
    (get_risk_level (some 12.5)).level = .l3 ∧
    (get_risk_level (some 14.4)).level = .l4 ∧
    (get_risk_level (some 16.2)).level = .l5 := by
  refine ⟨rfl, fun v => ?_, by norm_num [get_risk_level], by norm_num [get_risk_level],
    by norm_num [get_risk_level], by norm_num [get_risk_level]⟩
  simp only [get_risk_level]
  split_ifs with h1 h2 h3 h4 <;>
    refine ⟨?_, ?_, ?_, ?_, ?_⟩ <;> simp <;>
    first
      | linarith
      | (intro h; linarith)
      | (constructor <;> linarith)

/-- C3: the stored combined value of every hex cell equals the spec's
composite formula — matched wind speed times `(1.5/10)^0.25` times the
clamped height factor `min(1 + 0.25*max(0, h/8 - 1), 1.6)` times `1.36` —
rounded to 2 decimal places for storage. -/
theorem c3_composite_formula (stations : List Station) (center_lat center_lng : ℝ)
    (heights : List ℚ) :
    cell_combined_stored stations center_lat center_lng heights =
      round2R (spec_compositeValue
        ((windUsed (nearest_station center_lat center_lng stations) : ℚ) : ℝ)
        ((repHeight heights : ℚ) : ℝ)) := by
  unfold cell_combined_stored combined_value spec_compositeValue spec_heightFactor
  congr 1

/-- C7: the composite value is non-negative for non-negative wind speed,
non-decreasing in wind speed at fixed height, non-decreasing in height at
fixed wind speed, and the height factor always lies in `[1, 1.6]`. -/
theorem c7_composite_monotone (w w' h h' : ℝ)
    (hw : 0 ≤ w) (hww : w ≤ w') (hhh : h ≤ h') :
    0 ≤ combined_value h w ∧
    combined_value h w ≤ combined_value h w' ∧
    combined_value h w ≤ combined_value h' w ∧
    1 ≤ spec_heightFactor h ∧ spec_heightFactor h ≤ 1.6 := by
  have hc : (0 : ℝ) < (1.5 / 10) ^ (0.25 : ℝ) :=
    Real.rpow_pos_of_pos (by norm_num) _
  have hf1 : ∀ x : ℝ, 1 ≤ spec_heightFactor x := by
    intro x
    have hmax : (0 : ℝ) ≤ max 0 (x / 8 - 1) := le_max_left 0 _
    unfold spec_heightFactor
    refine le_min ?_ (by norm_num)
    linarith
  have hf2 : ∀ x : ℝ, spec_heightFactor x ≤ 1.6 := fun x => min_le_right _ _
  have hf0 : ∀ x : ℝ, 0 ≤ spec_heightFactor x := fun x => le_trans zero_le_one (hf1 x)
  have hfmono : spec_heightFactor h ≤ spec_heightFactor h' := by
    unfold spec_heightFactor
    have : max 0 (h / 8 - 1) ≤ max 0 (h' / 8 - 1) :=
      max_le_max le_rfl (by linarith)
    exact min_le_min (by linarith) le_rfl
  have hcv : ∀ a b : ℝ, combined_value a b =
      b * (1.5 / 10) ^ (0.25 : ℝ) * spec_heightFactor a * 1.36 := by
    intro a b
    unfold combined_value spec_heightFactor
    ring
  refine ⟨?_, ?_, ?_, hf1 h, hf2 h⟩
  · rw [hcv]
    have : 0 ≤ w * (1.5 / 10) ^ (0.25 : ℝ) := mul_nonneg hw hc.le
    have := mul_nonneg this (hf0 h)
    linarith
  · rw [hcv, hcv]
    have h1 : w * (1.5 / 10) ^ (0.25 : ℝ) ≤ w' * (1.5 / 10) ^ (0.25 : ℝ) :=
      mul_le_mul_of_nonneg_right hww hc.le
    have h2 : w * (1.5 / 10) ^ (0.25 : ℝ) * spec_heightFactor h ≤
        w' * (1.5 / 10) ^ (0.25 : ℝ) * spec_heightFactor h :=
      mul_le_mul_of_nonneg_right h1 (hf0 h)
    linarith
  · rw [hcv, hcv]
    have h1 : 0 ≤ w * (1.5 / 10) ^ (0.25 : ℝ) := mul_nonneg hw hc.le
    have h2 : w * (1.5 / 10) ^ (0.25 : ℝ) * spec_heightFactor h ≤
        w * (1.5 / 10) ^ (0.25 : ℝ) * spec_heightFactor h' :=
      mul_le_mul_of_nonneg_left hfmono h1
    linarith

/-- Witness for C7 at wind speeds 0 ≤ 1 and heights 0 ≤ 16. -/
theorem c7_composite_monotone_witness :
    (0 : ℝ) ≤ 0 ∧ (0 : ℝ) ≤ 1 ∧ (0 : ℝ) ≤ 16 ∧
    (0 ≤ combined_value 0 0 ∧
     combined_value 0 0 ≤ combined_value 0 1 ∧
     combined_value 0 0 ≤ combined_value 16 0 ∧
     1 ≤ spec_heightFactor 0 ∧ spec_heightFactor 0 ≤ 1.6) :=
  ⟨le_refl 0, by norm_num, by norm_num,
   c7_composite_monotone 0 1 0 16 (le_refl 0) (by norm_num) (by norm_num)⟩

/-- Unfolding the building-assignment loop at a fixed cell: the heights
appended to `c` are exactly the heights of the buildings whose cell index
is `c`, provided `c` is a grid cell, and nothing is ever appended to a
non-grid cell. -/
lemma assignHeights_fold (cellSet : List String) (toCellB : ℚ × ℚ → String)
    (buildings : List Building) :
    ∀ (acc : String → List ℚ) (c : String),
      (buildings.foldl (assignStep cellSet toCellB) acc) c =
        acc c ++ (if c ∈ cellSet then
          (buildings.filter (fun b => decide (toCellB (b.lat, b.lng) = c))).map
            (fun b => b.height)
          else []) := by
  induction buildings with
  | nil =>
    intro acc c
    split_ifs <;> simp
  | cons b bs ih =>
    intro acc c
    rw [List.foldl_cons, ih]
    by_cases hmem : toCellB (b.lat, b.lng) ∈ cellSet
    · by_cases hc : c = toCellB (b.lat, b.lng)
      · subst hc
        simp [assignStep, hmem, List.filter_cons]
      · have hpb : decide (toCellB (b.lat, b.lng) = c) = false := by
          simp only [decide_eq_false_iff_not]
          exact fun h => hc h.symm
        have hstep : (assignStep cellSet toCellB acc b) c = acc c := by
          simp only [assignStep]
          rw [if_pos hmem]
          exact if_neg hc
        rw [hstep, List.filter_cons, hpb]
        simp
    · have hstep : assignStep cellSet toCellB acc b = acc := by
        simp [assignStep, hmem]
      rw [hstep]
      by_cases hcs : c ∈ cellSet
      · have hpb : decide (toCellB (b.lat, b.lng) = c) = false := by
          simp only [decide_eq_false_iff_not]
          intro h
          exact hmem (by rw [h]; exact hcs)
        rw [List.filter_cons, hpb]
        simp
      · simp [hcs]

/-- The left fold of `max` over a list (Python's `max(list)`) returns one
of the candidates. -/
lemma foldl_max_mem (t : List ℚ) : ∀ h : ℚ, List.foldl max h t ∈ h :: t := by
  induction t with
  | nil => intro h; simp
  | cons a t ih =>
    intro h
    rw [List.foldl_cons]
    rcases List.mem_cons.mp (ih (max h a)) with h1 | h1
    · rcases max_choice h a with h2 | h2 <;> rw [h1, h2] <;> simp
    · exact List.mem_cons_of_mem _ (List.mem_cons_of_mem _ h1)

/-- The left fold of `max` over a list bounds every candidate above. -/
lemma le_foldl_max (t : List ℚ) : ∀ h x : ℚ, x ∈ h :: t → x ≤ List.foldl max h t := by
  induction t with
  | nil =>
    intro h x hx
    simp at hx
    simp [hx]
  | cons a t ih =>
    intro h x hx
    rw [List.foldl_cons]
    rcases List.mem_cons.mp hx with rfl | hx1
    · exact le_trans (le_max_left x a) (ih _ _ (List.mem_cons_self _ _))
    · rcases List.mem_cons.mp hx1 with rfl | hx2
      · exact le_trans (le_max_right h x) (ih _ _ (List.mem_cons_self _ _))
      · exact ih _ _ (List.mem_cons_of_mem _ hx2)

/-- The representative height bounds every element of the height list. -/
lemma repHeight_le (l : List ℚ) : ∀ x ∈ l, x ≤ repHeight l := by
  cases l with
  | nil => intro x hx; simp at hx
  | cons h t => intro x hx; exact le_foldl_max t h x hx

/-- The representative height of a non-empty height list is one of the
heights. -/
lemma repHeight_mem (l : List ℚ) (hne : l ≠ []) : repHeight l ∈ l := by
  cases l with
  | nil => exact absurd rfl hne
  | cons h t => exact foldl_max_mem t h

/-- C4: for every grid cell, the heights assigned to it are exactly the
heights of the buildings mapped to that cell, and the representative
height fed into the composite formula is their maximum — an upper bound
of the assigned heights that is itself one of them — with height 0 for a
cell with zero assigned buildings. -/
theorem c4_max_height (cellSet : List String) (toCellB : ℚ × ℚ → String)
    (buildings : List Building) (c : String) (hc : c ∈ cellSet) :
    assignHeights cellSet toCellB buildings c =
      (buildings.filter (fun b => decide (toCellB (b.lat, b.lng) = c))).map
        (fun b => b.height) ∧
    (∀ x ∈ assignHeights cellSet toCellB buildings c,
      x ≤ repHeight (assignHeights cellSet toCellB buildings c)) ∧
    (assignHeights cellSet toCellB buildings c ≠ [] →
      repHeight (assignHeights cellSet toCellB buildings c) ∈
        assignHeights cellSet toCellB buildings c) ∧
    (assignHeights cellSet toCellB buildings c = [] →
      repHeight (assignHeights cellSet toCellB buildings c) = 0) := by
  refine ⟨?_, repHeight_le _, repHeight_mem _, ?_⟩
  · rw [assignHeights, assignHeights_fold cellSet toCellB buildings (fun _ => []) c,
      if_pos hc]
    simp
  · intro hl
    rw [hl]
    rfl

/-- Concrete building list for the C4 witness. -/
def bldgsW : List Building := [⟨0, 0, 5⟩, ⟨0, 0, 3⟩]

/-- Witness for C4: two buildings of heights 5 and 3 assigned to the one
grid cell "a". -/
theorem c4_max_height_witness :
    ("a" ∈ ["a"]) ∧
    (assignHeights ["a"] (fun _ => "a") bldgsW "a" =
      (bldgsW.filter (fun b => decide ((fun _ => "a") (b.lat, b.lng) = "a"))).map
        (fun b => b.height) ∧
    (∀ x ∈ assignHeights ["a"] (fun _ => "a") bldgsW "a",
      x ≤ repHeight (assignHeights ["a"] (fun _ => "a") bldgsW "a")) ∧
    (assignHeights ["a"] (fun _ => "a") bldgsW "a" ≠ [] →
      repHeight (assignHeights ["a"] (fun _ => "a") bldgsW "a") ∈
        assignHeights ["a"] (fun _ => "a") bldgsW "a") ∧
    (assignHeights ["a"] (fun _ => "a") bldgsW "a" = [] →
      repHeight (assignHeights ["a"] (fun _ => "a") bldgsW "a") = 0)) :=
  ⟨List.mem_cons_self _ _,
   c4_max_height ["a"] (fun _ => "a") bldgsW "a" (List.mem_cons_self _ _)⟩

/-- The stride used by `_calculate_road_value`, `max(1, n // min(10, n))`,
coincides with `max(1, n // 10)` for every point count `n`. -/
lemma sampleIndices_stride (n : ℕ) :
    sampleIndices n = pyRange n (max 1 (n / 10)) := by
  have key : max 1 (n / min 10 n) = max 1 (n / 10) := by
    rcases Nat.lt_or_ge n 10 with h | h
    · rcases Nat.eq_zero_or_pos n with h0 | h0
      · subst h0; rfl
      · rw [min_eq_right (le_of_lt h), Nat.div_self h0, Nat.div_eq_of_lt h]
        rfl
    · rw [min_eq_left h]
  show pyRange n (max 1 (n / min 10 n)) = pyRange n (max 1 (n / 10))
  rw [key]

/-- Number of sampled indices, as a function of the stride. -/
lemma sampleIndices_length (n : ℕ) :
    (sampleIndices n).length = (n + max 1 (n / 10) - 1) / max 1 (n / 10) := by
  rw [sampleIndices_stride]
  simp [pyRange]

/-- For fewer than 10 points the stride is 1 and every point is sampled. -/
lemma sampleIndices_count_small (n : ℕ) (h : n < 10) :
    (sampleIndices n).length = n := by
  rw [sampleIndices_length]
  have h10 : n / 10 = 0 := Nat.div_eq_of_lt h
  rw [h10]
  simp

/-- For at least 10 points, between 10 and 19 indices are sampled. -/
lemma sampleIndices_count_large (n : ℕ) (h : 10 ≤ n) :
    10 ≤ (sampleIndices n).length ∧ (sampleIndices n).length ≤ 19 := by
  rw [sampleIndices_length]
  have hq : 0 < n / 10 := Nat.div_pos h (by norm_num)
  have hmax : max 1 (n / 10) = n / 10 := max_eq_right hq
  rw [hmax]
  have hdm : 10 * (n / 10) + n % 10 = n := Nat.div_add_mod n 10
  have hr : n % 10 < 10 := Nat.mod_lt n (by norm_num)
  constructor
  · rw [Nat.le_div_iff_mul_le hq]
    omega
  · have h19 : (n + n / 10 - 1) / (n / 10) < 20 := by
      rw [Nat.div_lt_iff_lt_mul hq]
      omega
    omega

/-- The composite values successfully looked up at the sampled indices of
a geometry. -/
def sampledValues (toCell : Point → Option String) (h3_map : String → Option ℚ)
    (geometry : List Point) : List ℚ :=
  (sampleIndices geometry.length).filterMap
    (fun i => (geometry.get? i).bind (fun p => (toCell p).bind h3_map))

/-- Definitional unfolding of `sampledValues`, in rewrite direction. -/
lemma sampledValues_def (toCell : Point → Option String) (h3_map : String → Option ℚ)
    (geometry : List Point) :
    (sampleIndices geometry.length).filterMap
      (fun i => (geometry.get? i).bind (fun p => (toCell p).bind h3_map)) =
      sampledValues toCell h3_map geometry := rfl

/-- One sampling step, rephrased through the lookup function. -/
lemma sampleStep_eq (toCell : Point → Option String) (h3_map : String → Option ℚ)
    (geometry : List Point) (acc : ℚ × ℕ) (i : ℕ) :
    sampleStep toCell h3_map geometry acc i =
      match (geometry.get? i).bind (fun p => (toCell p).bind h3_map) with
      | some v => (acc.1 + v, acc.2 + 1)
      | none => acc := by
  unfold sampleStep
  rcases geometry.get? i with _ | p
  · rfl
  · rfl

/-- The sampling loop accumulates exactly the sum and the count of the
successfully looked-up values. -/
lemma sample_fold (toCell : Point → Option String) (h3_map : String → Option ℚ)
    (geometry : List Point) :
    ∀ (l : List ℕ) (acc : ℚ × ℕ),
      l.foldl (sampleStep toCell h3_map geometry) acc =
        (acc.1 + (l.filterMap
            (fun i => (geometry.get? i).bind (fun p => (toCell p).bind h3_map))).sum,
         acc.2 + (l.filterMap
            (fun i => (geometry.get? i).bind (fun p => (toCell p).bind h3_map))).length) := by
  intro l
  induction l with
  | nil => intro acc; simp
  | cons i l ih =>
    intro acc
    rw [List.foldl_cons, ih, sampleStep_eq]
    rcases hf : (geometry.get? i).bind (fun p => (toCell p).bind h3_map) with _ | v
    · simp only [List.filterMap_cons, hf]
    · simp only [List.filterMap_cons, hf, List.sum_cons, List.length_cons, Prod.mk.injEq]
      constructor
      · ring
      · omega

/-- C1 (amended): `_calculate_road_value` samples the arithmetic
subsequence of indices starting at 0 with stride
`max(1, pointCount // 10)` over the whole index range — which is every
point when `pointCount < 10` and between 10 and 19 points (so possibly
more than 10) when `pointCount ≥ 10` — and the road's average composite
value is the mean of the cell values looked up at exactly those sampled
indices whose cell index is present in the value map, or null when none
is. -/
theorem c1_sampling_amended (toCell : Point → Option String) (h3_map : String → Option ℚ)
    (geometry : List Point) :
    sampleIndices geometry.length =
      pyRange geometry.length (max 1 (geometry.length / 10)) ∧
    (geometry.length < 10 → (sampleIndices geometry.length).length = geometry.length) ∧
    (10 ≤ geometry.length →
      10 ≤ (sampleIndices geometry.length).length ∧
      (sampleIndices geometry.length).length ≤ 19) ∧
    calculate_road_value toCell h3_map geometry =
      (if sampledValues toCell h3_map geometry = [] then none
       else some ((sampledValues toCell h3_map geometry).sum /
         ((sampledValues toCell h3_map geometry).length : ℚ))) := by
  refine ⟨sampleIndices_stride _, sampleIndices_count_small _,
    sampleIndices_count_large _, ?_⟩
  unfold calculate_road_value roadSampleAcc
  rw [sample_fold toCell h3_map geometry (sampleIndices geometry.length) (0, 0),
    sampledValues_def]
  rcases hv : sampledValues toCell h3_map geometry with _ | ⟨x, xs⟩
  · simp
  · simp

/-- Concrete 12-point geometry for the C1 witness. -/
def geomW : List Point := List.replicate 12 ⟨0, 0⟩

/-- Witness for C1 on a 12-point geometry: at least 10 points, sample
count between 10 and 19. -/
theorem c1_sampling_amended_witness :
    (10 : ℕ) ≤ geomW.length ∧
    (10 ≤ (sampleIndices geomW.length).length ∧
     (sampleIndices geomW.length).length ≤ 19) :=
  ⟨by decide,
   (c1_sampling_amended (fun _ => none) (fun _ => none) geomW).2.2.1 (by decide)⟩

/-- C1 counterexample: on a 19-point geometry `sample_count = min(10, 19)
= 10` and the stride is `19 // 10 = 1`, so all 19 indices are sampled —
the claimed bound of at most 10 sampled points fails. -/
theorem c1_counterexample :
    (sampleIndices 19).length = 19 ∧ ¬ ((sampleIndices 19).length ≤ 10) := by
  decide

/-- C10: for every road that `_analyze_roads_task` passes on to
`_calculate_road_value` (name not the sentinel, geometry non-empty), both
divisions inside `_calculate_road_value` are safe — the divisor
`sample_count = min(10, pointCount)` is at least 1, the stride
`max(1, pointCount // sample_count)` used by `range` is at least 1 — and
the final average is formed only when `valid_points > 0`, with `None`
returned otherwise. -/
theorem c10_division_safety (toCell : Point → Option String) (h3_map : String → Option ℚ)
    (road : Road) (_hname : road.name ≠ "未命名道路") (hgeom : road.geometry ≠ []) :
    0 < min 10 road.geometry.length ∧
    0 < max 1 (road.geometry.length / min 10 road.geometry.length) ∧
    (calculate_road_value toCell h3_map road.geometry = none ↔
      (roadSampleAcc toCell h3_map road.geometry).2 = 0) ∧
    ∀ v, calculate_road_value toCell h3_map road.geometry = some v →
      0 < (roadSampleAcc toCell h3_map road.geometry).2 ∧
      v = (roadSampleAcc toCell h3_map road.geometry).1 /
        ((roadSampleAcc toCell h3_map road.geometry).2 : ℚ) := by
  have hlen : 0 < road.geometry.length := List.length_pos.mpr hgeom
  refine ⟨by omega, lt_of_lt_of_le one_pos (le_max_left 1 _), ?_, ?_⟩
  · simp only [calculate_road_value]
    split_ifs with hpos
    · simp
      omega
    · simp
      omega
  · intro v hv
    simp only [calculate_road_value] at hv
    split_ifs at hv with hpos
    · refine ⟨hpos, ?_⟩
      injection hv with hv'
      exact hv'.symm

/-- Concrete road for the C10 witness. -/
def roadW : Road := ⟨1, "中山北路", "primary", [⟨25, 121⟩]⟩

/-- Witness for C10 on a named one-point road. -/
theorem c10_division_safety_witness :
    (roadW.name ≠ "未命名道路") ∧ (roadW.geometry ≠ []) ∧
    (0 < min 10 roadW.geometry.length ∧
     0 < max 1 (roadW.geometry.length / min 10 roadW.geometry.length) ∧
     (calculate_road_value (fun _ => none) (fun _ => none) roadW.geometry = none ↔
       (roadSampleAcc (fun _ => none) (fun _ => none) roadW.geometry).2 = 0) ∧
     ∀ v, calculate_road_value (fun _ => none) (fun _ => none) roadW.geometry = some v →
       0 < (roadSampleAcc (fun _ => none) (fun _ => none) roadW.geometry).2 ∧
       v = (roadSampleAcc (fun _ => none) (fun _ => none) roadW.geometry).1 /
         ((roadSampleAcc (fun _ => none) (fun _ => none) roadW.geometry).2 : ℚ)) :=
  ⟨by decide, by decide,
   c10_division_safety (fun _ => none) (fun _ => none) roadW (by decide) (by decide)⟩

/-- Incrementing one bucket adds exactly one to the bucket sum. -/
lemma Stats.total_incr (s : Stats) (lv : RiskLevel) :
    (s.incr lv).total = s.total + 1 := by
  cases lv <;> simp [Stats.incr, Stats.total] <;> omega

/-- Each loop iteration of `_analyze_roads_task` adds one to the bucket
sum exactly for non-excluded roads. -/
lemma roadStep_total (toCell : Point → Option String) (h3_map : String → Option ℚ)
    (acc : List RoadInfo × Stats) (road : Road) :
    ((roadStep toCell h3_map acc road).2).total =
      acc.2.total + (if roadExcluded road then 0 else 1) := by
  by_cases h1 : road.name = "未命名道路"
  · simp [roadStep, roadExcluded, h1]
  · by_cases h2 : road.geometry = []
    · simp [roadStep, roadExcluded, h1, h2]
    · simp [roadStep, roadExcluded, h1, h2, Stats.total_incr]

/-- Over the whole loop, the bucket sum counts the non-excluded roads. -/
lemma analyze_fold_total (toCell : Point → Option String) (h3_map : String → Option ℚ)
    (roads : List Road) :
    ∀ acc : List RoadInfo × Stats,
      ((roads.foldl (roadStep toCell h3_map) acc).2).total =
        acc.2.total + roads.countP (fun r => !roadExcluded r) := by
  induction roads with
  | nil => intro acc; simp
  | cons r rs ih =>
    intro acc
    rw [List.foldl_cons, ih, roadStep_total, List.countP_cons]
    by_cases h : roadExcluded r
    · simp [h]
    · simp [h]
      omega

/-- Bucket sum of `_analyze_roads_task`. -/
lemma analyze_roads_task_total (toCell : Point → Option String)
    (h3_map : String → Option ℚ) (roads : List Road) :
    ((analyze_roads_task toCell h3_map roads).2).total =
      roads.countP (fun r => !roadExcluded r) := by
  unfold analyze_roads_task
  rw [analyze_fold_total]
  simp [Stats.init, Stats.total]

/-- A list on which some element fails the predicate has strictly fewer
predicate-satisfying elements than elements. -/
lemma countP_lt_length_of_exists {α : Type} (p : α → Bool) (l : List α)
    (h : ∃ a ∈ l, p a = false) : l.countP p < l.length := by
  induction l with
  | nil => simp at h
  | cons a l ih =>
    rcases h with ⟨b, hb, hbp⟩
    rw [List.countP_cons, List.length_cons]
    rcases List.mem_cons.mp hb with rfl | hbl
    · have hle := List.countP_le_length (p := p) (l := l)
      simp [hbp]
      omega
    · have hlt := ih ⟨b, hbl, hbp⟩
      by_cases hpa : p a = true <;> simp [hpa] <;> omega

/-- C9: in every freshly computed classification response, the reported
`total_roads_analyzed` equals the length of the full input road list
(excluded roads included), while the six bucket counts sum to the number
of non-excluded roads only; hence the total exceeds the bucket sum
whenever at least one road is excluded. -/
theorem c9_totals (toCell : Point → Option String) (risk_level : Option ℤ)
    (srcs : Sources) (now : ℕ) (st : CacheState)
    (h3_map : String → Option ℚ) (roads : List Road) (st1 : CacheState)
    (hload : load_road_analysis_data srcs st = .ok (h3_map, roads, st1))
    (hrl : risk_level = none ∨ ∃ l, risk_level = some l ∧ 1 ≤ l ∧ l ≤ 5) :
    ∃ st2 resp,
      analyze_road_risk toCell risk_level false srcs now st = (st2, .ok resp) ∧
      resp.total_roads_analyzed = roads.length ∧
      resp.stats.total = roads.countP (fun r => !roadExcluded r) ∧
      ((∃ r ∈ roads, roadExcluded r) →
        resp.stats.total < resp.total_roads_analyzed) := by
  have hexceed : (∃ r ∈ roads, roadExcluded r) →
      roads.countP (fun r => !roadExcluded r) < roads.length := by
    rintro ⟨r, hr, hex⟩
    exact countP_lt_length_of_exists _ _ ⟨r, hr, by simp [hex]⟩
  rcases hrl with rfl | ⟨l, rfl, hl1, hl5⟩
  · simp only [analyze_road_risk, analyze_road_risk_body, hload]
    refine ⟨_, _, rfl, rfl, ?_, ?_⟩
    · exact analyze_roads_task_total toCell h3_map roads
    · intro hex
      have h1 := hexceed hex
      have h2 := analyze_roads_task_total toCell h3_map roads
      simp only [RiskResponse.total_roads_analyzed]
      omega
  · simp only [analyze_road_risk, analyze_road_risk_body, hload]
    rw [if_neg (show ¬(l < 1 ∨ 5 < l) by omega)]
    refine ⟨_, _, rfl, rfl, ?_, ?_⟩
    · exact analyze_roads_task_total toCell h3_map roads
    · intro hex
      have h1 := hexceed hex
      have h2 := analyze_roads_task_total toCell h3_map roads
      simp only [RiskResponse.total_roads_analyzed]
      omega

/-- An excluded (sentinel-named) road used in concrete inputs. -/
def roadX : Road := ⟨2, "未命名道路", "residential", [⟨25, 121⟩]⟩

/-- Concrete sources: a present (trivial) grid map and a two-road file
with one excluded road. -/
def srcsW : Sources := ⟨some (fun _ => none), some [roadX, roadW]⟩

/-- Witness for C9 on the concrete two-road source with an excluded road. -/
theorem c9_totals_witness :
    (load_road_analysis_data srcsW emptyState =
      .ok ((fun _ => none), [roadX, roadW],
        ⟨none, none, some (fun _ => none), some [roadX, roadW]⟩)) ∧
    ((none : Option ℤ) = none ∨
      ∃ l, (none : Option ℤ) = some l ∧ 1 ≤ l ∧ l ≤ 5) ∧
    ∃ st2 resp,
      analyze_road_risk (fun _ => none) none false srcsW 0 emptyState =
        (st2, .ok resp) ∧
      resp.total_roads_analyzed = [roadX, roadW].length ∧
      resp.stats.total = [roadX, roadW].countP (fun r => !roadExcluded r) ∧
      ((∃ r ∈ [roadX, roadW], roadExcluded r) →
        resp.stats.total < resp.total_roads_analyzed) :=
  ⟨rfl, Or.inl rfl,
   c9_totals (fun _ => none) none srcsW 0 emptyState (fun _ => none)
     [roadX, roadW] ⟨none, none, some (fun _ => none), some [roadX, roadW]⟩
     rfl (Or.inl rfl)⟩

/-- C2 (code-bug evidence): calling `analyze_road_risk` with the
out-of-range `risk_level = 6` on a cold cache with both sources present
first performs the full load and classification — observable through the
populated `_road_risk_cache` — and then surfaces the rejection as a 500
server error, because the `HTTPException(400)` raised inside the `try`
block is itself an `Exception` and is re-wrapped by the blanket
`except Exception` handler. -/
theorem c2_invalid_level_bug :
    (analyze_road_risk (fun _ => none) (some 6) true srcsW 0 emptyState).2 =
      ApiOutcome.error 500 "分析道路風險時發生錯誤: 400: risk_level 必須在 1-5 之間" ∧
    ((analyze_road_risk (fun _ => none) (some 6) true srcsW 0
        emptyState).1).road_risk_cache.isSome = true :=
  ⟨rfl, rfl⟩

/-- C8: the clear operation resets all four module caches to `None`
unconditionally, and the next classification call performs a full
recomputation from the sources with `cached = false`, with a result that
does not depend on the pre-clear state in any way. -/
theorem c8_cache_clear (st : CacheState) (toCell : Point → Option String)
    (srcs : Sources) (h3_map : String → Option ℚ) (roads : List Road) (now : ℕ)
    (hh : srcs.hexgrid = some h3_map) (hr : srcs.roads = some roads) :
    (clear_road_risk_cache st).road_risk_cache = none ∧
    (clear_road_risk_cache st).road_risk_cache_time = none ∧
    (clear_road_risk_cache st).hexgrid_cache = none ∧
    (clear_road_risk_cache st).roads_cache = none ∧
    analyze_road_risk toCell none true srcs now (clear_road_risk_cache st) =
      (⟨some ⟨prepare_result_dict (analyze_roads_task toCell h3_map roads).1
               (analyze_roads_task toCell h3_map roads).2,
             (analyze_roads_task toCell h3_map roads).2, roads.length⟩,
        some now, some h3_map, some roads⟩,
       ApiOutcome.ok ⟨false,
         .all (prepare_result_dict (analyze_roads_task toCell h3_map roads).1
                (analyze_roads_task toCell h3_map roads).2),
         roads.length, (analyze_roads_task toCell h3_map roads).2⟩) := by
  refine ⟨rfl, rfl, rfl, rfl, ?_⟩
  have hsrc : srcs = ⟨some h3_map, some roads⟩ := by
    obtain ⟨sh, sr⟩ := srcs
    simp_all
  rw [hsrc]
  rfl

/-- A junk pre-clear cache state for the C8 witness. -/
def stJ : CacheState :=
  ⟨some ⟨prepare_result_dict [] Stats.init, Stats.init, 7⟩, some 3, none, none⟩

/-- Witness for C8: clearing the junk state and re-analyzing against the
concrete two-road sources. -/
theorem c8_cache_clear_witness :
    (srcsW.hexgrid = some (fun _ => none)) ∧
    (srcsW.roads = some [roadX, roadW]) ∧
    ((clear_road_risk_cache stJ).road_risk_cache = none ∧
     (clear_road_risk_cache stJ).road_risk_cache_time = none ∧
     (clear_road_risk_cache stJ).hexgrid_cache = none ∧
     (clear_road_risk_cache stJ).roads_cache = none ∧
     analyze_road_risk (fun _ => none) none true srcsW 5 (clear_road_risk_cache stJ) =
       (⟨some ⟨prepare_result_dict
                 (analyze_roads_task (fun _ => none) (fun _ => none) [roadX, roadW]).1
                 (analyze_roads_task (fun _ => none) (fun _ => none) [roadX, roadW]).2,
               (analyze_roads_task (fun _ => none) (fun _ => none) [roadX, roadW]).2,
               [roadX, roadW].length⟩,
         some 5, some (fun _ => none), some [roadX, roadW]⟩,
        ApiOutcome.ok ⟨false,
          .all (prepare_result_dict
                  (analyze_roads_task (fun _ => none) (fun _ => none) [roadX, roadW]).1
                  (analyze_roads_task (fun _ => none) (fun _ => none) [roadX, roadW]).2),
          [roadX, roadW].length,
          (analyze_roads_task (fun _ => none) (fun _ => none) [roadX, roadW]).2⟩)) :=
  ⟨rfl, rfl,
   c8_cache_clear stJ (fun _ => none) srcsW (fun _ => none) [roadX, roadW] 5 rfl rfl⟩

/-- Distance from a cell center to a station, exactly as computed inside
the nearest-station scan. -/
noncomputable def stationDist (lat lng : ℝ) (s : Station) : ℝ :=
  haversine_distance lat lng s.latitude s.longitude

/-- Invariant of the nearest-station scan: starting from a current best
`(m, dist m)` over a list of valid stations, the scan returns a station
at minimal distance; the current best survives unless a later station is
strictly closer, and among strict improvements the earliest wins. -/
lemma nearest_from_spec (lat lng : ℝ) (l : List Station) :
    ∀ m : Station, (∀ s ∈ l, 0 < s.latitude ∧ 0 < s.longitude) →
      ∃ r, nearest_from lat lng (some (m, stationDist lat lng m)) l =
          some (r, stationDist lat lng r) ∧
        stationDist lat lng r ≤ stationDist lat lng m ∧
        (∀ s ∈ l, stationDist lat lng r ≤ stationDist lat lng s) ∧
        (r = m ∨ ∃ l1 l2, l = l1 ++ r :: l2 ∧
          stationDist lat lng r < stationDist lat lng m ∧
          ∀ s ∈ l1, stationDist lat lng r < stationDist lat lng s) := by
  induction l with
  | nil =>
    intro m _
    exact ⟨m, rfl, le_refl _, by simp, Or.inl rfl⟩
  | cons s rest ih =>
    intro m hv
    have hs := hv s (List.mem_cons_self _ _)
    have hrest : ∀ t ∈ rest, 0 < t.latitude ∧ 0 < t.longitude :=
      fun t ht => hv t (List.mem_cons_of_mem _ ht)
    have hred : nearest_from lat lng (some (m, stationDist lat lng m)) (s :: rest) =
        if stationDist lat lng s < stationDist lat lng m then
          nearest_from lat lng (some (s, stationDist lat lng s)) rest
        else nearest_from lat lng (some (m, stationDist lat lng m)) rest := by
      simp only [nearest_from]
      rw [if_pos hs]
      rfl
    by_cases hlt : stationDist lat lng s < stationDist lat lng m
    · rw [hred, if_pos hlt]
      obtain ⟨r, hr, h1, h2, h3⟩ := ih s hrest
      refine ⟨r, hr, le_trans h1 (le_of_lt hlt), ?_, ?_⟩
      · intro t ht
        rcases List.mem_cons.mp ht with rfl | ht1
        · exact h1
        · exact h2 t ht1
      · rcases h3 with rfl | ⟨l1, l2, hl, hlt2, hpre⟩
        · exact Or.inr ⟨[], rest, rfl, hlt, by simp⟩
        · refine Or.inr ⟨s :: l1, l2, by rw [hl, List.cons_append], lt_trans hlt2 hlt, ?_⟩
          intro t ht
          rcases List.mem_cons.mp ht with rfl | ht1
          · exact hlt2
          · exact hpre t ht1
    · rw [hred, if_neg hlt]
      obtain ⟨r, hr, h1, h2, h3⟩ := ih m hrest
      have hms : stationDist lat lng m ≤ stationDist lat lng s := le_of_not_lt hlt
      refine ⟨r, hr, h1, ?_, ?_⟩
      · intro t ht
        rcases List.mem_cons.mp ht with rfl | ht1
        · exact le_trans h1 hms
        · exact h2 t ht1
      · rcases h3 with rfl | ⟨l1, l2, hl, hlt2, hpre⟩
        · exact Or.inl rfl
        · refine Or.inr ⟨s :: l1, l2, by rw [hl, List.cons_append], hlt2, ?_⟩
          intro t ht
          rcases List.mem_cons.mp ht with rfl | ht1
          · exact lt_of_lt_of_le hlt2 hms
          · exact hpre t ht1

/-- C6: for every cell center the matched station is one minimizing the
haversine great-circle distance over all retained stations, ties broken
in favour of the station encountered first in input order (there is a
decomposition `stations = l1 ++ r :: l2` with every station strictly
farther in the prefix `l1`); with no retained station the match is null
and the wind speed used for the cell is 0. -/
theorem c6_nearest_station (lat lng : ℝ) (stations : List Station)
    (hv : ∀ s ∈ stations, 0 < s.latitude ∧ 0 < s.longitude) :
    (stations = [] → nearest_station lat lng stations = none ∧
      windUsed (nearest_station lat lng stations) = 0) ∧
    (stations ≠ [] → ∃ r, nearest_station lat lng stations = some r ∧
      (∀ s ∈ stations, stationDist lat lng r ≤ stationDist lat lng s) ∧
      ∃ l1 l2, stations = l1 ++ r :: l2 ∧
        ∀ s ∈ l1, stationDist lat lng r < stationDist lat lng s) := by
  constructor
  · rintro rfl
    exact ⟨rfl, rfl⟩
  · intro hne
    rcases stations with _ | ⟨s0, rest⟩
    · exact absurd rfl hne
    · have hs0 := hv s0 (List.mem_cons_self _ _)
      have hrest : ∀ t ∈ rest, 0 < t.latitude ∧ 0 < t.longitude :=
        fun t ht => hv t (List.mem_cons_of_mem _ ht)
      have hfirst : nearest_from lat lng none (s0 :: rest) =
          nearest_from lat lng (some (s0, stationDist lat lng s0)) rest := by
        simp only [nearest_from]
        rw [if_pos hs0]
        rfl
      obtain ⟨r, hr, h1, h2, h3⟩ := nearest_from_spec lat lng rest s0 hrest
      refine ⟨r, ?_, ?_, ?_⟩
      · unfold nearest_station
        rw [hfirst, hr]
        rfl
      · intro t ht
        rcases List.mem_cons.mp ht with rfl | ht1
        · exact h1
        · exact h2 t ht1
      · rcases h3 with rfl | ⟨l1, l2, hl, hlt2, hpre⟩
        · exact ⟨[], rest, rfl, by simp⟩
        · refine ⟨s0 :: l1, l2, by rw [hl, List.cons_append], ?_⟩
          intro t ht
          rcases List.mem_cons.mp ht with rfl | ht1
          · exact hlt2
          · exact hpre t ht1

/-- A concrete retained station for the C6 witness. -/
def stW : Station := ⟨"466920", "臺北", "臺北市", 25, 121.5, some 3⟩

/-- Witness for C6 on a one-station list. -/
theorem c6_nearest_station_witness :
    (∀ s ∈ [stW], 0 < s.latitude ∧ 0 < s.longitude) ∧
    ([stW] ≠ []) ∧
    (∃ r, nearest_station 25 121.5 [stW] = some r ∧
      (∀ s ∈ [stW], stationDist 25 121.5 r ≤ stationDist 25 121.5 s) ∧
      ∃ l1 l2, [stW] = l1 ++ r :: l2 ∧
        ∀ s ∈ l1, stationDist 25 121.5 r < stationDist 25 121.5 s) := by
  have hval : ∀ s ∈ [stW], 0 < s.latitude ∧ 0 < s.longitude := by
    intro s hs
    rw [List.mem_singleton] at hs
    subst hs
    constructor <;> norm_num [stW]
  exact ⟨hval, by simp,
    (c6_nearest_station 25 121.5 [stW] hval).2 (by simp)⟩
